import Mathlib

/-!
Verification development for the `web-automation` repository
(an Outlook-signup automation service: FastAPI orchestrator in
`app/main.py`, Playwright driver in `app/automation.py`, structured
logger in `app/logger.py`, credential helpers in `app/curp_utils.py`).

The Python source is shallowly embedded: pure string heuristics become
Lean functions over `String`; the sequential control flow of the driver
becomes pure functions over a `PageModel` snapshot (each fallible
browser call is a boolean field of the model, `true` = the call did not
raise); the per-job mutable state of the orchestrator (`JOBS[job_id]` plus
the `_active_contexts` registry entry for that id) becomes a `Sys`
record, and each handler / background task becomes a state transformer.
Randomness (`random.randint`) and the wall clock (`datetime.utcnow`)
are passed in as explicit arguments.
-/

namespace WebAuto

/-! ## String helpers (Python `str.lower` and the `in` substring test) -/

/-- `startsWithList hay needle`: `needle` is a leading segment of `hay`
(char-by-char comparison, the base of the substring test). -/
def startsWithList : List Char → List Char → Bool
  | _, [] => true
  | [], _ :: _ => false
  | a :: as, b :: bs => a == b && startsWithList as bs

/-- `containsList hay needle`: `needle` occurs contiguously inside `hay`
(the Python test `needle in hay` on the underlying characters). -/
def containsList : List Char → List Char → Bool
  | [], needle => needle.isEmpty
  | a :: t, needle => startsWithList (a :: t) needle || containsList t needle

/-- Python `needle in hay` for strings. -/
def strContains (hay needle : String) : Bool :=
  containsList hay.toList needle.toList

/-- Python `str.lower()` (ASCII case folding; every keyword list and
probe input in the repository is ASCII), as the character-wise map over
the underlying list. -/
def lowerStr (s : String) : String := String.mk (s.data.map Char.toLower)

/-! ## Detection heuristics (`app/automation.py` lines 16-35, 463-468) -/

/-- `PROTECTION_HOSTS` of `app/automation.py`: host substrings that mark
Microsoft bot-protection pages. -/
def PROTECTION_HOSTS : List String :=
  ["hsprotect", "perimeterx", "arkoselabs", "crcldu", "fpt.live.com"]

/-- `CAPTCHA_KEYWORDS` of `app/automation.py`: page-text phrases that
mark a captcha / challenge page. -/
def CAPTCHA_KEYWORDS : List String :=
  ["help us", "captcha", "prove you\x27re not", "press and hold",
   "verify", "puzzle", "challenge", "security check"]

/-- `_contains_captcha_text(text)`: empty/None text is `False`;
otherwise lowercase the text and test each keyword with `in`. -/
def contains_captcha_text (text : String) : Bool :=
  if text == "" then false
  else
    let t := lowerStr text
    CAPTCHA_KEYWORDS.any (fun k => strContains t k)

/-- The URL list `_is_protection_page` builds: the page URL lowered,
then every non-empty frame URL lowered
(`[page.url.lower()] + [fr.url.lower() for fr in page.frames if fr.url]`). -/
def pageUrlList (url : String) (frameUrls : List String) : List String :=
  lowerStr url :: (frameUrls.filter (fun u => u != "")).map lowerStr

/-- `_is_protection_page(page)`: some collected URL contains some
protection host substring. -/
def is_protection_page (url : String) (frameUrls : List String) : Bool :=
  (pageUrlList url frameUrls).any
    (fun u => PROTECTION_HOSTS.any (fun host => strContains u host))

/-- `success_indicators` of `run_signup` / `resume_signup`. -/
def SUCCESS_INDICATORS : List String :=
  ["welcome", "congratulations", "account created", "success", "inbox", "outlook"]

/-- The URL success indicators of `run_signup` / `resume_signup`
(`["outlook", "live.com/mail"]`). -/
def SUCCESS_URL_INDICATORS : List String := ["outlook", "live.com/mail"]

/-- The `is_success` test of `run_signup` (lines 463-468) and
`resume_signup` (lines 602-607): an indicator in the lowered page text,
or a URL indicator in the lowered current URL. -/
def is_success_check (pageText url : String) : Bool :=
  SUCCESS_INDICATORS.any (fun k => strContains (lowerStr pageText) k)
  || SUCCESS_URL_INDICATORS.any (fun k => strContains (lowerStr url) k)

/-! ## Job status values -/

/-- The status strings a job record can carry
(`queued`, `running`, `waiting_for_human`, `resuming`,
`completed`, `failed`, `error` — `app/models.py` and `app/main.py`). -/
inductive Status
  | queued
  | running
  | waiting_for_human
  | resuming
  | completed
  | failed
  | error
deriving DecidableEq, Repr

/-! ## Page model and the signup driver (`run_signup`, lines 208-550)

A `PageModel` is a snapshot of the browser page the driver works on:
its URL, frame URLs and text, which probe selectors report visible,
and which fallible browser calls succeed (`true` = did not raise).
The post-navigation body of the driver (protection check → email phase →
password phase → outcome check) is embedded as `signupFlow`, which also
records every field fill and button click it attempts. -/

structure PageModel where
  url : String
  frameUrls : List String
  pageText : String
  /-- `page.is_visible(sel, ...)` for each probe selector. -/
  visible : String → Bool
  /-- whether `_slow_type` on this selector returns `True`. -/
  fillOk : String → Bool
  /-- whether `_slow_click` on this selector returns `True`. -/
  clickOk : String → Bool
  /-- whether `page.screenshot()` succeeds (`_safe_screenshot` returns bytes). -/
  screenshotOk : Bool

/-- A page interaction the driver attempts. -/
inductive Action
  | fill (selector text : String)
  | click (selector : String)
deriving DecidableEq, Repr

/-- `email_selectors` of `run_signup`. -/
def EMAIL_SELECTORS : List String :=
  ["input[name=\x22loginfmt\x22]", "input[type=\x22email\x22]",
   "input[placeholder*=\x22email\x22]", "input[aria-label*=\x22email\x22]",
   "#i0116", "input[name=\x22Email\x22]", "input[id*=\x22Email\x22]"]

/-- `next_selectors` of `run_signup`. -/
def NEXT_SELECTORS : List String :=
  ["input[type=\x22submit\x22]", "button[type=\x22submit\x22]",
   "input[value=\x22Next\x22]", "button:has-text(\x22Next\x22)",
   "#idSIButton9", "input[id=\x22idSIButton9\x22]", ".btn-primary",
   "[data-report-event=\x22Signin_Submit\x22]"]

/-- `password_selectors` of `run_signup`. -/
def PASSWORD_SELECTORS : List String :=
  ["input[name=\x22passwd\x22]", "input[name=\x22Password\x22]",
   "input[type=\x22password\x22]", "#i0118",
   "input[placeholder*=\x22password\x22]", "input[aria-label*=\x22password\x22]"]

/-- `submit_selectors` of `run_signup`. -/
def SUBMIT_SELECTORS : List String :=
  ["input[type=\x22submit\x22]", "button[type=\x22submit\x22]",
   "input[value=\x22Next\x22]", "input[value=\x22Create account\x22]",
   "button:has-text(\x22Create account\x22)", "button:has-text(\x22Next\x22)",
   "#idSIButton9", "input[id=\x22idSIButton9\x22]"]

/-- The button loop of `run_signup`: try each selector in order; for the
first visible one attempt `_slow_click`; a successful click breaks the
loop, a failed one moves to the next selector. Returns whether some
click succeeded and the clicks attempted. -/
def tryClickLoop (pg : PageModel) : List String → Bool × List Action
  | [] => (false, [])
  | s :: rest =>
    if pg.visible s then
      if pg.clickOk s then (true, [Action.click s])
      else
        let (r, acts) := tryClickLoop pg rest
        (r, Action.click s :: acts)
    else tryClickLoop pg rest

/-- One field phase of `run_signup` (email, lines 291-344; password,
lines 365-417): try each field selector in order; for the first visible
one attempt `_slow_type`; on success run the button loop and break; on
fill failure move to the next field selector. Returns whether a fill
succeeded and every fill/click attempted. -/
def fillAndSubmitPhase (pg : PageModel) (text : String)
    (btnSels : List String) : List String → Bool × List Action
  | [] => (false, [])
  | s :: rest =>
    if pg.visible s then
      if pg.fillOk s then
        let (_, clickActs) := tryClickLoop pg btnSels
        (true, Action.fill s text :: clickActs)
      else
        let (r, acts) := fillAndSubmitPhase pg text btnSels rest
        (r, Action.fill s text :: acts)
    else fillAndSubmitPhase pg text btnSels rest

/-- The result of one driver pass: the outcome status, whether the
outcome screenshot was attempted / persisted via `logger.save_screenshot`,
whether the registry entry for the job is kept alive, and the fills and
clicks attempted. (Intermediate debug screenshots are not tracked.) -/
structure RunResult where
  status : Status
  screenshotAttempted : Bool
  screenshotSaved : Bool
  keepsSession : Bool
  actions : List Action
deriving DecidableEq, Repr

/-- The post-navigation body of `run_signup` (lines 271-527) over one
page snapshot: protection check first (early `waiting_for_human` return
with no field interaction), then the email and password phases, then
outcome classification — captcha text / protection host first, success
indicators second, unknown state last (the latter also suspends as
`waiting_for_human`). `completed` is the only branch that releases the
session (`cleanup_context`); the suspended branches keep it. -/
def signupFlow (pg : PageModel) (email password : String) : RunResult :=
  if is_protection_page pg.url pg.frameUrls then
    { status := .waiting_for_human
      screenshotAttempted := true
      screenshotSaved := pg.screenshotOk
      keepsSession := true
      actions := [] }
  else
    let (_, emailActs) := fillAndSubmitPhase pg email NEXT_SELECTORS EMAIL_SELECTORS
    let (_, pwActs) := fillAndSubmitPhase pg password SUBMIT_SELECTORS PASSWORD_SELECTORS
    let acts := emailActs ++ pwActs
    if contains_captcha_text pg.pageText || is_protection_page pg.url pg.frameUrls then
      { status := .waiting_for_human
        screenshotAttempted := true
        screenshotSaved := pg.screenshotOk
        keepsSession := true
        actions := acts }
    else if is_success_check pg.pageText pg.url then
      { status := .completed
        screenshotAttempted := true
        screenshotSaved := false
        keepsSession := false
        actions := acts }
    else
      { status := .waiting_for_human
        screenshotAttempted := true
        screenshotSaved := pg.screenshotOk
        keepsSession := true
        actions := acts }

/-! ## The resume driver (`resume_signup`, lines 552-623) -/

/-- The result of `resume_signup`: outcome status, the `error` field of
the returned dict, whether the driver touched the page at all (banner
removal / content read), and whether it ran outcome classification. -/
structure ResumeResult where
  status : Status
  errorMsg : Option String
  interacted : Bool
  classified : Bool
deriving DecidableEq, Repr

/-- `resume_signup(job_id, logger)` over the registry membership of the
job id and the current page snapshot: with no live registry entry it
returns the `Browser context not found` error immediately, touching no
page; otherwise it re-classifies the existing page with the same
priority as `run_signup` (captcha/protection, then success, then
unknown — both non-success branches stay `waiting_for_human`).
Only the `completed` branch calls `cleanup_context`. -/
def resume_signup (inRegistry : Bool) (pg : PageModel) : ResumeResult :=
  if !inRegistry then
    { status := .error
      errorMsg := some "Browser context not found"
      interacted := false
      classified := false }
  else if contains_captcha_text pg.pageText || is_protection_page pg.url pg.frameUrls then
    { status := .waiting_for_human
      errorMsg := some "CAPTCHA still present"
      interacted := true
      classified := true }
  else if is_success_check pg.pageText pg.url then
    { status := .completed
      errorMsg := none
      interacted := true
      classified := true }
  else
    { status := .waiting_for_human
      errorMsg := some "Still in unknown state"
      interacted := true
      classified := true }

/-! ## The structured logger (`app/logger.py`) -/

/-- One record of `JobLogger.log`. The `timestamp` is the clock reading
`now_iso()` took when the entry was created (modelled as a numeric
reading of the UTC clock; the ISO-8601 strings the code writes compare
identically to their clock values, being fixed-format). -/
structure LogEntry where
  timestamp : Nat
  step : String
  success : Bool
  message : String
deriving DecidableEq, Repr

/-- In-memory state of a `JobLogger` (its `entries` list; the mirrored
`.jsonl` file receives exactly the same appends). -/
structure JobLogger where
  entries : List LogEntry
deriving DecidableEq, Repr

/-- `JobLogger.log(step, success, message)`: build one entry stamped
with the current clock reading and append it (`self.entries.append`). -/
def JobLogger.log (l : JobLogger) (now : Nat) (step : String)
    (success : Bool) (message : String) : JobLogger :=
  { entries := l.entries ++ [{ timestamp := now, step := step,
                               success := success, message := message }] }

/-- The arguments of one `logger.log(...)` call, together with the
clock reading at which it runs. -/
structure LogCall where
  now : Nat
  step : String
  success : Bool
  message : String
deriving DecidableEq, Repr

/-- The entry a `LogCall` produces. -/
def LogCall.entry (c : LogCall) : LogEntry :=
  { timestamp := c.now, step := c.step, success := c.success, message := c.message }

/-- Run a sequence of `logger.log` calls in order. -/
def runLog (l : JobLogger) (calls : List LogCall) : JobLogger :=
  calls.foldl (fun acc c => acc.log c.now c.step c.success c.message) l

/-- The timestamp column of a log. -/
def timestamps (es : List LogEntry) : List Nat := es.map (fun e => e.timestamp)

/-- A list of clock readings is non-decreasing. -/
def nondecreasing : List Nat → Bool
  | [] => true
  | [_] => true
  | a :: b :: t => decide (a ≤ b) && nondecreasing (b :: t)

/-! ## Orchestrator state (`app/main.py`)

`Sys` is the externally observable state for one job id: the `JOBS`
record plus whether `_active_contexts` holds a live session for that id.
Every handler and background task of `app/main.py` becomes a function
on `Sys`; claims about "every job" quantify over `Sys`, since distinct
job ids never share record or registry entry. -/

/-- The fields of the `JOBS[job_id]` dict that the lifecycle touches
(credentials and paths are immutable after creation and elided). -/
structure Job where
  status : Status
  browser_open : Bool
  /-- `created_account["creation_status"]`. -/
  creation_status : String
  logs : List LogEntry
  captcha_screenshot : Option String
deriving DecidableEq, Repr

/-- Observable state for one job id: its record and its Session
Registry membership (`job_id in _active_contexts`). -/
structure Sys where
  job : Job
  inRegistry : Bool
deriving DecidableEq, Repr

/-- The job record `create_job` installs (status `queued`,
`browser_open` false, creation status `pending`); no session exists yet. -/
def createdSys : Sys :=
  { job := { status := .queued
             browser_open := false
             creation_status := "pending"
             logs := []
             captcha_screenshot := none }
    inRegistry := false }

/-- The invariant of claim C1, as a decidable test:
`status == waiting_for_human` ⇔ a live session is registered for the
job ⇔ `browser_open == true`. -/
def invariantHolds (s : Sys) : Bool :=
  ((s.job.status == .waiting_for_human) == s.inRegistry)
  && (s.inRegistry == s.job.browser_open)

/-- The part of the C1 invariant the code maintains even when a
`ctx.close()` inside `cleanup_context` raises:
`status == waiting_for_human` ⇔ `browser_open == true`, and
`status == waiting_for_human` ⇒ a registry entry exists.
(The converse of the last implication is exactly what a raising
`close()` breaks: a residual entry on a non-waiting job.) -/
def invariantWeakHolds (s : Sys) : Bool :=
  ((s.job.status == .waiting_for_human) == s.job.browser_open)
  && (!(s.job.status == .waiting_for_human) || s.inRegistry)

/-- The statuses `run_signup` can hand back to `_run`
(`completed`, `waiting_for_human`, or `failed` when both browser
channels are exhausted; an `error` result from one channel is consumed
by the fallback retry and never returned). -/
inductive RunOutcome
  | completed
  | waiting_for_human
  | failed
deriving DecidableEq, Repr

def RunOutcome.toStatus : RunOutcome → Status
  | .completed => .completed
  | .waiting_for_human => .waiting_for_human
  | .failed => .failed

/-- The `created_account["creation_status"]` value `_run` writes for
each outcome (lines 77-85). -/
def RunOutcome.creationStatus : RunOutcome → String
  | .completed => "success"
  | .waiting_for_human => "waiting_for_captcha"
  | .failed => "failed"

/-- Registry state when `run_signup` returns. The `waiting_for_human`
branches keep the stored context. The `completed` branch calls
`cleanup_context(job_id)` (line 494), which deletes the entry only when
`ctx.close()` does not raise (`closeOk`) — the `del` follows `close()`
inside the `try` and the `except` swallows the exception, so a raising
`close()` retains the entry. The two-channel `failed` return follows
per-channel exception cleanups: an entry remains only when the failing
channel had already stored a context (`stored`) and its cleanup
`close()` raised. -/
def registryAfterRunSignup (o : RunOutcome) (stored closeOk : Bool) : Bool :=
  match o with
  | .waiting_for_human => true
  | .completed => !closeOk
  | .failed => stored && !closeOk

/-- The first statements of `_run` (lines 64-66): status `running` and
`browser_open := True`, before the browser is even launched. This
intermediate state is observable by a concurrent `GET /jobs/{id}`. -/
def runPrologue (s : Sys) : Sys :=
  { s with job := { s.job with status := .running, browser_open := true } }

/-- The whole `_run` background task on its non-exceptional path, given
the outcome `run_signup` returned, whether a context had been stored by
the failing channel and whether the cleanup `ctx.close()` succeeded
(both feed `registryAfterRunSignup`), whether a screenshot was
returned, and the log entries collected by the logger of the task:
replace `logs`, copy the outcome status, set `creation_status` and
`browser_open` per outcome (lines 72-91), and leave the registry as
`run_signup` left it. -/
def runTask (o : RunOutcome) (stored closeOk shot : Bool)
    (entries : List LogEntry) (s : Sys) : Sys :=
  let s1 := runPrologue s
  { job := { status := o.toStatus
             browser_open := o == .waiting_for_human
             creation_status := o.creationStatus
             logs := entries
             captcha_screenshot :=
               if shot then some "captcha.png" else s1.job.captcha_screenshot }
    inRegistry := registryAfterRunSignup o stored closeOk }

/-- The statuses `resume_signup` can return
(`error`, `waiting_for_human`, `completed`). -/
inductive ResumeOutcome
  | completed
  | waiting_for_human
  | error
deriving DecidableEq, Repr

def ResumeOutcome.toStatus : ResumeOutcome → Status
  | .completed => .completed
  | .waiting_for_human => .waiting_for_human
  | .error => .error

/-- `created_account["creation_status"]` written by `_resume`
(lines 136-144; the else branch copies the status string). -/
def ResumeOutcome.creationStatus : ResumeOutcome → String
  | .completed => "success"
  | .waiting_for_human => "still_waiting_for_captcha"
  | .error => "error"

/-- The first statement of `_resume` (line 124): status `resuming`.
This runs on the worker pool, not in the request handler. -/
def resumePrologue (s : Sys) : Sys :=
  { s with job := { s.job with status := .resuming } }

/-- Registry state when `resume_signup` returns, given whether an entry
existed (`wasIn`), the outcome, and whether the cleanup `ctx.close()`
succeeded: with no entry nothing changes (the no-context `error` return
happens before any registry access); the still-`waiting_for_human`
outcome keeps the entry; `completed` (line 612) and the exception
branch (line 622) call `cleanup_context`, which removes the entry only
when `close()` does not raise. -/
def registryAfterResumeSignup (wasIn : Bool) (o : ResumeOutcome)
    (closeOk : Bool) : Bool :=
  if !wasIn then false
  else
    match o with
    | .waiting_for_human => true
    | .completed => !closeOk
    | .error => !closeOk

/-- The whole `_resume` background task on its non-exceptional path.
`classification` is what the page re-classification inside
`resume_signup` would yield; with no live registry entry `resume_signup`
instead returns its `error` outcome without touching the page. The
registry is left as `registryAfterResumeSignup` describes. `_resume`
extends `logs` (line 131) rather than replacing them. -/
def resumeTask (classification : ResumeOutcome) (closeOk shot : Bool)
    (entries : List LogEntry) (s : Sys) : Sys :=
  let s1 := resumePrologue s
  let o := if s.inRegistry then classification else .error
  { job := { status := o.toStatus
             browser_open := o == .waiting_for_human
             creation_status := o.creationStatus
             logs := s1.job.logs ++ entries
             captcha_screenshot :=
               if shot then some "captcha_resume.png" else s1.job.captcha_screenshot }
    inRegistry := registryAfterResumeSignup s.inRegistry o closeOk }

/-! ## The resume handler and manual browser close (`app/main.py`) -/

/-- What `POST /jobs/{id}/resume` sends back for an existing job:
the success body `{"job_id": ..., "status": "resuming"}`, or an
`HTTPException`. -/
inductive ResumeResp
  | accepted (status : String)
  | httpError (code : Nat) (detail : String)
deriving DecidableEq, Repr

/-- `resume_job` (lines 111-159) for an existing job: reject with a 400
`HTTPException` unless the current status is exactly
`waiting_for_human`; otherwise submit `_resume` to the executor and
return the `resuming` body. The triple is (response, job state at the
moment the handler returns, whether `_resume` was scheduled); the
handler itself never writes the job record — `job["status"]` changes
only inside the scheduled task. -/
def resume_job (s : Sys) : ResumeResp × Sys × Bool :=
  if s.job.status != .waiting_for_human then
    (.httpError 400 "Job not in waiting_for_human state", s, false)
  else
    (.accepted "resuming", s, true)

/-- `cleanup_context(job_id)` (`app/automation.py` lines 197-206): if
an entry is present, `ctx.close()` then `del _active_contexts[job_id]`
inside one `try` whose `except` swallows everything — so the entry is
removed only when `close()` does not raise (`closeOk`); a raising
`close()` skips the `del` and retains the entry. Absent entry: no-op. -/
def cleanup_context (closeOk : Bool) (s : Sys) : Sys :=
  if s.inRegistry then
    (if closeOk then { s with inRegistry := false } else s)
  else s

/-- `DELETE /jobs/{id}/browser` (`close_browser`, lines 162-174) for an
existing job: run `cleanup_context` (whose own `close()` call may raise
without surfacing, `closeOk`), set `browser_open := False`, return the
`Browser closed` message (`cleanup_context` itself never raises, so the
success branch is always taken). -/
def close_browser (closeOk : Bool) (s : Sys) : Sys × String :=
  let s1 := cleanup_context closeOk s
  ({ s1 with job := { s1.job with browser_open := false } }, "Browser closed")

/-! ## Interaction primitives (`_slow_type`, `_slow_click`) -/

/-- Which steps of one `_slow_type` invocation succeed (`true` = the
underlying browser call did not raise). The injected highlight scripts
guard with `if (el)`, so an element the script fails to find styles
nothing but raises nothing; `highlightOk` / `unhighlightOk` are about
the `page.evaluate` calls themselves. -/
structure SlowTypeEnv where
  waitOk : Bool
  focusOk : Bool
  highlightOk : Bool
  clearOk : Bool
  typeOk : Bool
  unhighlightOk : Bool
deriving DecidableEq, Repr

/-- `_slow_type` (lines 91-146): wait for the selector, focus, inject
the highlight, clear the field, type character by character, remove the
highlight; the first step that raises lands in the `except` handler and
returns `False`, and only a run with no raise returns `True`. -/
def slow_type (e : SlowTypeEnv) : Bool :=
  if !e.waitOk then false
  else if !e.focusOk then false
  else if !e.highlightOk then false
  else if !e.clearOk then false
  else if !e.typeOk then false
  else if !e.unhighlightOk then false
  else true

/-- Which steps of one `_slow_click` invocation succeed. -/
structure SlowClickEnv where
  waitOk : Bool
  highlightOk : Bool
  clickOk : Bool
  unhighlightOk : Bool
deriving DecidableEq, Repr

/-- `_slow_click` (lines 148-189): wait, inject highlight, click,
remove highlight; the first raise returns `False`. -/
def slow_click (e : SlowClickEnv) : Bool :=
  if !e.waitOk then false
  else if !e.highlightOk then false
  else if !e.clickOk then false
  else if !e.unhighlightOk then false
  else true

/-! ## Credential generation (`app/curp_utils.py`) -/

/-- The Python slice `s[:n]` (the first `n` code points, the whole
string when shorter). -/
def takeStr (s : String) (n : Nat) : String := String.mk (s.data.take n)

/-- `gen_email_from_curp(curp, domain="outlook.com")`: the first four
characters of the input lowered (`curp[:4].lower()`, the whole string
when shorter; `"user"` for empty input), then `random.randint(100, 999)`
— passed in as `suffix` — then `@domain`. -/
def gen_email_from_curp (curp : String) (suffix : Nat) (domain : String) : String :=
  let core := if curp == "" then "user" else lowerStr (takeStr curp 4)
  core ++ toString suffix ++ "@" ++ domain

/-! ## Shared lemmas -/

/-- Every captcha keyword is a non-empty string. -/
theorem captcha_keywords_nonempty :
    ∀ k ∈ CAPTCHA_KEYWORDS, k.toList.isEmpty = false := by decide

/-- Every protection host substring is a non-empty string. -/
theorem protection_hosts_nonempty :
    ∀ h ∈ PROTECTION_HOSTS, h.toList.isEmpty = false := by decide

/-- Nothing non-empty occurs inside the empty string. -/
theorem strContains_empty (needle : String) :
    strContains "" needle = needle.toList.isEmpty := rfl

/-- If the lowered page text contains some captcha keyword, then
`_contains_captcha_text` accepts the text. -/
theorem contains_captcha_text_of_keyword (t k : String)
    (hk : k ∈ CAPTCHA_KEYWORDS) (hc : strContains (lowerStr t) k = true) :
    contains_captcha_text t = true := by
  have hne : k.toList.isEmpty = false := captcha_keywords_nonempty k hk
  unfold contains_captcha_text
  by_cases ht : t = ""
  · subst ht
    rw [show lowerStr "" = "" from rfl, strContains_empty, hne] at hc
    exact absurd hc (by simp)
  · have : (t == "") = false := by simpa using ht
    simp only [this, Bool.false_eq_true, if_false]
    exact List.any_eq_true.mpr ⟨k, hk, hc⟩

/-- A string whose lowering contains a non-empty needle is itself
non-empty. -/
theorem ne_empty_of_strContains (u h : String)
    (hne : h.toList.isEmpty = false)
    (hc : strContains (lowerStr u) h = true) : u ≠ "" := by
  intro hu
  subst hu
  rw [show lowerStr "" = "" from rfl, strContains_empty, hne] at hc
  exact absurd hc (by simp)

/-- If some protection host substring occurs in the lowered current URL
or in the lowering of some frame URL, `_is_protection_page` fires. -/
theorem is_protection_page_of_host (url : String) (frameUrls : List String)
    (host : String) (hh : host ∈ PROTECTION_HOSTS)
    (hc : strContains (lowerStr url) host = true ∨
          ∃ fu ∈ frameUrls, strContains (lowerStr fu) host = true) :
    is_protection_page url frameUrls = true := by
  unfold is_protection_page
  apply List.any_eq_true.mpr
  rcases hc with hurl | ⟨fu, hfu, hcon⟩
  · exact ⟨lowerStr url, List.mem_cons_self _ _,
      List.any_eq_true.mpr ⟨host, hh, hurl⟩⟩
  · have hfne : fu ≠ "" :=
      ne_empty_of_strContains fu host (protection_hosts_nonempty host hh) hcon
    refine ⟨lowerStr fu, ?_, List.any_eq_true.mpr ⟨host, hh, hcon⟩⟩
    apply List.mem_cons_of_mem
    exact List.mem_map_of_mem lowerStr (List.mem_filter.mpr ⟨hfu, by simpa using hfne⟩)

/-! ## Claim theorems -/

/-- Claim C3: for every existing job whose status is not
`waiting_for_human`, `POST /jobs/{id}/resume` returns the 400
`HTTPException`, schedules no `_resume` task, and leaves the whole job
record (and registry entry) unchanged. -/
theorem C3_resume_rejected_when_not_waiting (s : Sys)
    (h : s.job.status ≠ .waiting_for_human) :
    resume_job s = (.httpError 400 "Job not in waiting_for_human state", s, false) := by
  have hb : (s.job.status != Status.waiting_for_human) = true := by simpa using h
  simp [resume_job, hb]

/-- Claim C3 witness: a freshly created job (status `queued`) is
rejected with the 400 error, unchanged, nothing scheduled. -/
theorem C3_witness :
    createdSys.job.status ≠ Status.waiting_for_human ∧
    resume_job createdSys =
      (.httpError 400 "Job not in waiting_for_human state", createdSys, false) :=
  ⟨by decide, C3_resume_rejected_when_not_waiting createdSys (by decide)⟩

/-- The observable state after the initial background run settles on
`waiting_for_human` for a fresh job: status `waiting_for_human`, a live
session in the registry, `browser_open = true`. -/
def waitingSys : Sys := runTask .waiting_for_human true true true [] createdSys

/-- Claim C2 counterexample: for a job in `waiting_for_human`, the
resume handler accepts (body `resuming`, task scheduled) yet the job
record at the moment the handler returns still carries the stale
`waiting_for_human` status — the transition to `resuming` is not
synchronous, so a concurrent `GET` can still observe
`waiting_for_human` after the resume was accepted. -/
theorem C2_counterexample :
    (resume_job waitingSys).1 = .accepted "resuming" ∧
    (resume_job waitingSys).2.2 = true ∧
    (resume_job waitingSys).2.1.job.status = .waiting_for_human ∧
    (resume_job waitingSys).2.1.job.status ≠ .resuming := by decide

/-- Claim C2 (amended): an accepted resume returns the `resuming` body
and schedules `_resume` while leaving the job record untouched; the
status transition to `resuming` is the first statement of the scheduled
task, not of the handler. -/
theorem C2_resume_transition_in_task (s : Sys)
    (h : s.job.status = .waiting_for_human) :
    resume_job s = (.accepted "resuming", s, true) ∧
    (resumePrologue s).job.status = .resuming := by
  refine ⟨?_, rfl⟩
  have hb : (s.job.status != Status.waiting_for_human) = false := by
    simp [h]
  simp [resume_job, hb]

/-- Claim C2 (amended) witness at the concrete waiting job. -/
theorem C2_witness :
    waitingSys.job.status = Status.waiting_for_human ∧
    (resume_job waitingSys = (.accepted "resuming", waitingSys, true) ∧
      (resumePrologue waitingSys).job.status = .resuming) :=
  ⟨by decide, C2_resume_transition_in_task waitingSys (by decide)⟩

/-- Claim C1 counterexample: the invariant
(`waiting_for_human` ⇔ registry entry ⇔ `browser_open`) holds after the
initial run suspends, but the externally observable state right after a
`DELETE /jobs/{id}/browser` call violates it: the session is released
and `browser_open` is false while the status is still
`waiting_for_human`. -/
theorem C1_counterexample :
    invariantHolds waitingSys = true ∧
    invariantHolds (close_browser true waitingSys).1 = false ∧
    (close_browser true waitingSys).1.job.status = .waiting_for_human ∧
    (close_browser true waitingSys).1.inRegistry = false ∧
    (close_browser true waitingSys).1.job.browser_open = false := by decide

/-- Claim C1 (amended): the invariant holds at job creation, and
immediately after each background Driver run settles (initial `_run`
with any outcome `run_signup` can return, and `_resume` with any
classification, over any prior state) the surviving part holds:
`status == waiting_for_human` ⇔ `browser_open`, and
`status == waiting_for_human` ⇒ a registry entry exists; when every
cleanup `ctx.close()` succeeds, the full three-way equivalence holds at
those quiescent points. The invariant does not hold at every externally
observable point: `close_browser` can break it, and a raising cleanup
`close()` can leave a registry entry behind on a non-waiting job. -/
theorem C1_invariant_at_quiescent_points (o : RunOutcome)
    (o2 : ResumeOutcome) (stored closeOk closeOk2 shot shot2 : Bool)
    (entries entries2 : List LogEntry) (s s2 : Sys) :
    invariantHolds createdSys = true ∧
    invariantWeakHolds (runTask o stored closeOk shot entries s) = true ∧
    invariantWeakHolds (resumeTask o2 closeOk2 shot2 entries2 s2) = true ∧
    invariantHolds (runTask o stored true shot entries s) = true ∧
    invariantHolds (resumeTask o2 true shot2 entries2 s2) = true := by
  refine ⟨by decide, ?_, ?_, ?_, ?_⟩
  · cases o <;> cases stored <;> cases closeOk <;> rfl
  · cases h : s2.inRegistry <;> cases o2 <;> cases closeOk2 <;>
      simp [resumeTask, resumePrologue, invariantWeakHolds,
            registryAfterResumeSignup, h, ResumeOutcome.toStatus]
  · cases o <;> cases stored <;> rfl
  · cases h : s2.inRegistry <;> cases o2 <;>
      simp [resumeTask, resumePrologue, invariantHolds,
            registryAfterResumeSignup, h, ResumeOutcome.toStatus]

/-- Claim C6 counterexample: on a job with a live session, a
`close_browser` whose underlying `ctx.close()` raises does not release
the session (the registry entry survives, refuting unconditional
release), and a second call whose `close()` succeeds then removes the
entry — so the second call is not a no-op and changes the registry. -/
theorem C6_counterexample :
    waitingSys.inRegistry = true ∧
    (close_browser false waitingSys).1.inRegistry = true ∧
    (close_browser true (close_browser false waitingSys).1).1.inRegistry = false ∧
    close_browser true (close_browser false waitingSys).1
      ≠ close_browser false waitingSys := by decide

/-- Claim C6 (amended): `close_browser` always clears `browser_open`,
touches nothing else in the job record, and answers `Browser closed`;
it releases the session when one exists and the underlying `close()`
does not raise, but a raising `close()` retains the registry entry (the
exception is swallowed). Once the entry is gone, any further call is a
no-op with the same result, and repeating a call whose `close()`
outcome is unchanged is also a no-op — idempotence on the registry is
conditional on the release having succeeded, not unconditional. -/
theorem C6_close_browser_idempotent (s : Sys) (ok ok2 : Bool) :
    (close_browser ok s).1.job = { s.job with browser_open := false } ∧
    (close_browser ok s).2 = "Browser closed" ∧
    (close_browser true s).1.inRegistry = false ∧
    (close_browser false s).1.inRegistry = s.inRegistry ∧
    close_browser ok2 (close_browser true s).1 = close_browser true s ∧
    close_browser ok (close_browser ok s).1 = close_browser ok s := by
  obtain ⟨⟨st, bo, cs, lg, shot⟩, reg⟩ := s
  cases reg <;> cases ok <;> cases ok2 <;>
    exact ⟨rfl, rfl, rfl, rfl, rfl, rfl⟩

/-- Claim C7: resuming with no live session in the registry fails
immediately with the distinct `error` outcome carrying the
`Browser context not found` detail — not `waiting_for_human` — without
any page interaction or outcome classification; and the `_resume` task
then records status `error` on the job. -/
theorem C7_resume_without_session (pg : PageModel)
    (cls : ResumeOutcome) (closeOk shot : Bool) (entries : List LogEntry) (j : Job) :
    resume_signup false pg =
      { status := .error
        errorMsg := some "Browser context not found"
        interacted := false
        classified := false } ∧
    (resume_signup false pg).status ≠ .waiting_for_human ∧
    (resumeTask cls closeOk shot entries { job := j, inRegistry := false }).job.status = .error := by
  refine ⟨rfl, by simp [resume_signup], ?_⟩
  cases cls <;> rfl

/-- Claim C10 counterexample: two `_slow_type` runs agreeing on every
fill step (wait, focus, clear, typing all succeed) but differing in
whether the highlight-injection `page.evaluate` call raises give
different results, and likewise `_slow_click` with the
highlight-removal call — so the highlight calls are not outcome-neutral. -/
theorem C10_counterexample :
    slow_type { waitOk := true, focusOk := true, highlightOk := true,
                clearOk := true, typeOk := true, unhighlightOk := true } = true ∧
    slow_type { waitOk := true, focusOk := true, highlightOk := false,
                clearOk := true, typeOk := true, unhighlightOk := true } = false ∧
    slow_click { waitOk := true, highlightOk := true,
                 clickOk := true, unhighlightOk := true } = true ∧
    slow_click { waitOk := true, highlightOk := true,
                 clickOk := true, unhighlightOk := false } = false := by decide

/-- Claim C10 (amended): the result of `_slow_type` is the conjunction
of all six guarded steps — wait, focus, highlight injection, clear,
typing, highlight removal — and the result of `_slow_click` of its four;
a raising highlight injection or removal therefore makes the primitive
report failure even when the fill or click itself succeeds, while the
DOM styling applied (or skipped, when the element is absent) never
enters the result. -/
theorem C10_result_is_step_conjunction (e : SlowTypeEnv) (c : SlowClickEnv) :
    slow_type e = (e.waitOk && e.focusOk && e.highlightOk
                    && e.clearOk && e.typeOk && e.unhighlightOk) ∧
    slow_click c = (c.waitOk && c.highlightOk && c.clickOk && c.unhighlightOk) := by
  obtain ⟨w, f, hl, cl, ty, uh⟩ := e
  obtain ⟨w2, hl2, ck, uh2⟩ := c
  constructor
  · cases w <;> cases f <;> cases hl <;> cases cl <;> cases ty <;> cases uh <;> rfl
  · cases w2 <;> cases hl2 <;> cases ck <;> cases uh2 <;> rfl

/-- Claim C4: whenever the page text contains a captcha keyword and a
success indicator at once (both case-insensitively), the outcome
classification of the initial run and of the resume path both yield
`waiting_for_human`, never `completed` — the captcha/protection test
runs before the success test. -/
theorem C4_captcha_beats_success (pg : PageModel) (email password : String)
    (hc : ∃ k ∈ CAPTCHA_KEYWORDS, strContains (lowerStr pg.pageText) k = true)
    (_hs : ∃ k ∈ SUCCESS_INDICATORS, strContains (lowerStr pg.pageText) k = true) :
    (signupFlow pg email password).status = .waiting_for_human ∧
    (resume_signup true pg).status = .waiting_for_human := by
  obtain ⟨k, hk, hcon⟩ := hc
  have hcap : contains_captcha_text pg.pageText = true :=
    contains_captcha_text_of_keyword pg.pageText k hk hcon
  constructor
  · by_cases hp : is_protection_page pg.url pg.frameUrls = true
    · simp [signupFlow, hp]
    · simp only [Bool.not_eq_true] at hp
      simp [signupFlow, hp, hcap]
  · simp [resume_signup, hcap]

/-- The page of the C4 witness: text carries both the success indicator
`welcome` and the captcha keyword `challenge`. -/
def c4Page : PageModel :=
  { url := "https://signup.live.com/signup"
    frameUrls := []
    pageText := "Welcome! Please solve this challenge"
    visible := fun _ => false
    fillOk := fun _ => false
    clickOk := fun _ => false
    screenshotOk := true }

/-- Claim C4 witness: the spec example
`"Welcome! Please solve this challenge"` contains both kinds of keyword
and classifies as `waiting_for_human` on the run and resume paths. -/
theorem C4_witness :
    (∃ k ∈ CAPTCHA_KEYWORDS, strContains (lowerStr c4Page.pageText) k = true) ∧
    (∃ k ∈ SUCCESS_INDICATORS, strContains (lowerStr c4Page.pageText) k = true) ∧
    ((signupFlow c4Page "abcd123@outlook.com" "pw").status = .waiting_for_human ∧
      (resume_signup true c4Page).status = .waiting_for_human) :=
  ⟨by decide, by decide,
    C4_captcha_beats_success c4Page "abcd123@outlook.com" "pw" (by decide) (by decide)⟩

/-- Claim C5: if a protection-listed host name occurs case-insensitively
in the current page URL or in any embedded frame URL, the driver
returns `waiting_for_human` straight from the protection check:
the screenshot is attempted (and persisted whenever the capture
succeeds), the session is kept for the human, and no email fill,
password fill or button click is attempted. -/
theorem C5_protection_skips_form (pg : PageModel) (email password : String)
    (hp : ∃ host ∈ PROTECTION_HOSTS,
            strContains (lowerStr pg.url) host = true ∨
            ∃ fu ∈ pg.frameUrls, strContains (lowerStr fu) host = true) :
    signupFlow pg email password =
      { status := .waiting_for_human
        screenshotAttempted := true
        screenshotSaved := pg.screenshotOk
        keepsSession := true
        actions := [] } := by
  obtain ⟨host, hh, hc⟩ := hp
  have hprot : is_protection_page pg.url pg.frameUrls = true :=
    is_protection_page_of_host pg.url pg.frameUrls host hh hc
  simp [signupFlow, hprot]

/-- The page of the C5 witness: the current URL is clean, but a frame
URL carries the protection host `perimeterx` in mixed case; every form
probe would be visible and fillable, so any fill attempt would show up
in the recorded actions. -/
def c5Page : PageModel :=
  { url := "https://signup.live.com/signup"
    frameUrls := ["https://client.PerimeterX.net/challenge-frame"]
    pageText := "Enter your email address"
    visible := fun _ => true
    fillOk := fun _ => true
    clickOk := fun _ => true
    screenshotOk := true }

/-- Claim C5 witness: on `c5Page` the protection-host hypothesis holds
and the driver suspends with an empty interaction list. -/
theorem C5_witness :
    (∃ host ∈ PROTECTION_HOSTS,
       strContains (lowerStr c5Page.url) host = true ∨
       ∃ fu ∈ c5Page.frameUrls, strContains (lowerStr fu) host = true) ∧
    signupFlow c5Page "abcd123@outlook.com" "pw" =
      { status := .waiting_for_human
        screenshotAttempted := true
        screenshotSaved := c5Page.screenshotOk
        keepsSession := true
        actions := [] } :=
  ⟨by decide, C5_protection_skips_form c5Page "abcd123@outlook.com" "pw" (by decide)⟩

set_option maxRecDepth 4000 in
/-- A natural number in the `randint(100, 999)` range prints as exactly
three decimal digit characters. -/
theorem toString_three_digits : ∀ n, n < 1000 → 100 ≤ n →
    (toString n).length = 3 ∧ (toString n).toList.all Char.isDigit = true := by
  decide

/-- Claim C8: for any non-empty input, the generated address is the
first four characters of the input lowered, then the random suffix,
then `@outlook.com`; the suffix drawn from `randint(100, 999)` prints
as exactly three digits, and in particular the input
`ABCD123456HDFZRL09` always yields `abcd` ++ three digits ++
`@outlook.com`. -/
theorem C8_email_shape (curp : String) (suffix : Nat)
    (hne : curp ≠ "") (h1 : 100 ≤ suffix) (h2 : suffix ≤ 999) :
    gen_email_from_curp curp suffix "outlook.com"
      = lowerStr (takeStr curp 4) ++ toString suffix ++ "@" ++ "outlook.com" ∧
    (toString suffix).length = 3 ∧
    (toString suffix).toList.all Char.isDigit = true ∧
    gen_email_from_curp "ABCD123456HDFZRL09" suffix "outlook.com"
      = "abcd" ++ toString suffix ++ "@" ++ "outlook.com" := by
  have hb : (curp == "") = false := by simpa using hne
  have hlt : suffix < 1000 := by omega
  refine ⟨by simp [gen_email_from_curp, hb],
          (toString_three_digits suffix hlt h1).1,
          (toString_three_digits suffix hlt h1).2, ?_⟩
  have habcd : lowerStr (takeStr "ABCD123456HDFZRL09" 4) = "abcd" := by decide
  simp [gen_email_from_curp, habcd]

/-- Claim C8 witness at input `ABCD123456HDFZRL09` and suffix `123`. -/
theorem C8_witness :
    ("ABCD123456HDFZRL09" : String) ≠ "" ∧ 100 ≤ 123 ∧ 123 ≤ 999 ∧
    (gen_email_from_curp "ABCD123456HDFZRL09" 123 "outlook.com"
        = lowerStr (takeStr "ABCD123456HDFZRL09" 4) ++ toString 123 ++ "@" ++ "outlook.com" ∧
      (toString 123).length = 3 ∧
      (toString 123).toList.all Char.isDigit = true ∧
      gen_email_from_curp "ABCD123456HDFZRL09" 123 "outlook.com"
        = "abcd" ++ toString 123 ++ "@" ++ "outlook.com") :=
  ⟨by decide, by decide, by decide,
    C8_email_shape "ABCD123456HDFZRL09" 123 (by decide) (by decide) (by decide)⟩

/-- Running a sequence of `logger.log` calls appends exactly the
entries of those calls, in call order, after the existing entries. -/
theorem runLog_entries (calls : List LogCall) : ∀ l : JobLogger,
    (runLog l calls).entries = l.entries ++ calls.map LogCall.entry := by
  induction calls with
  | nil => intro l; simp [runLog]
  | cons c cs ih =>
    intro l
    show (runLog (l.log c.now c.step c.success c.message) cs).entries = _
    rw [ih]
    simp [JobLogger.log, LogCall.entry]

/-- Claim C9: the log is append-only — a run of `logger.log` calls
appends exactly its entries after the existing ones, never mutating,
removing or reordering them, and `_resume` extends the job log the same
way — and when the clock readings are non-decreasing across the
existing entries and the new calls (the UTC clock read by `now_iso`),
the timestamp sequence of the resulting log is non-decreasing. -/
theorem C9_log_append_only (l : JobLogger) (calls : List LogCall)
    (cls : ResumeOutcome) (closeOk shot : Bool) (s : Sys)
    (h : nondecreasing (timestamps l.entries ++ calls.map LogCall.now) = true) :
    (runLog l calls).entries = l.entries ++ calls.map LogCall.entry ∧
    nondecreasing (timestamps ((runLog l calls).entries)) = true ∧
    (resumeTask cls closeOk shot (calls.map LogCall.entry) s).job.logs
      = s.job.logs ++ calls.map LogCall.entry := by
  refine ⟨runLog_entries calls l, ?_, rfl⟩
  have hts : (calls.map LogCall.entry).map (fun e => e.timestamp)
      = calls.map LogCall.now := by
    rw [List.map_map]; rfl
  unfold timestamps at h ⊢
  rw [runLog_entries, List.map_append, hts]
  exact h

/-- The logger state of the C9 witness: one entry already present. -/
def c9Logger : JobLogger :=
  { entries := [{ timestamp := 1, step := "job_start", success := true,
                  message := "Starting signup" }] }

/-- The call sequence of the C9 witness (two calls share a clock
reading, as consecutive `utcnow` reads may). -/
def c9Calls : List LogCall :=
  [{ now := 2, step := "resume_start", success := true, message := "Resuming" },
   { now := 2, step := "screenshot_taken", success := true, message := "captured" },
   { now := 5, step := "resume_success", success := true, message := "done" }]

/-- Claim C9 witness: with a monotone clock the appended log stays in
non-decreasing timestamp order, and the job log is extended in place. -/
theorem C9_witness :
    nondecreasing (timestamps c9Logger.entries ++ c9Calls.map LogCall.now) = true ∧
    ((runLog c9Logger c9Calls).entries
        = c9Logger.entries ++ c9Calls.map LogCall.entry ∧
      nondecreasing (timestamps ((runLog c9Logger c9Calls).entries)) = true ∧
      (resumeTask .completed true false (c9Calls.map LogCall.entry) createdSys).job.logs
        = createdSys.job.logs ++ c9Calls.map LogCall.entry) :=
  ⟨by decide, C9_log_append_only c9Logger c9Calls .completed true false createdSys (by decide)⟩

end WebAuto
